import Mathlib

/-!
Shallow embedding of the Node.js backend collection
(TechNestIntern Node.js Backend Development).

Namespaces:
* `Jwt`            — model of the `jsonwebtoken` sign/verify interface as the
                     repository uses it (payload `\x7b userId \x7d` plus
                     `expiresIn` / `issuer` / `audience` options).
* `SecureBlogApi`  — the secure-blog-api middleware (`authenticate`,
                     `optionalAuth`, `generateToken`, `checkOwnership`) and
                     global error handler, and its `GET /posts/:id` route.
* `ExpressBlogApi` — the express-blog-api middleware (`auth`, `optionalAuth`,
                     `isOwner`), the register route, and the User model's
                     `toJSON` transform.
* `Chat`           — the socket chat relay's room history map.
-/

namespace Jwt

/-- The claims carried by a token as the repository issues them:
the account id (`userId` in the JS payload object), the expiry computed by
the library from the `expiresIn` option, and the optional `issuer` /
`audience` registered claims.  No other claim is placed in the payload. -/
structure Payload where
  userId : Nat
  exp : Nat
  iss : Option String
  aud : Option String
deriving DecidableEq, Repr

/-- A token string: either a well-formed token signed with some key, or an
arbitrary non-token string. -/
inductive TokenStr where
  | signed (p : Payload) (key : String)
  | garbage (s : String)
deriving DecidableEq, Repr

/-- The two error names the repository's handlers distinguish. -/
inductive VerifyError where
  | jsonWebTokenError
  | tokenExpiredError
deriving DecidableEq, Repr

/-- `jwt.sign(\x7b userId \x7d, key, \x7b expiresIn, issuer, audience \x7d)`:
produces a token whose expiry is the signing time plus the configured
lifetime (in seconds). -/
def sign (userId : Nat) (key : String) (now lifetime : Nat)
    (iss aud : Option String) : TokenStr :=
  .signed { userId := userId, exp := now + lifetime, iss := iss, aud := aud } key

/-- `jwt.verify(token, key)` at time `now`: fails with `JsonWebTokenError`
on a non-token or a key mismatch, with `TokenExpiredError` when the expiry
has passed, and otherwise returns the embedded payload. -/
def verify (t : TokenStr) (key : String) (now : Nat) :
    Except VerifyError Payload :=
  match t with
  | .garbage _ => .error .jsonWebTokenError
  | .signed p k =>
    if k ≠ key then .error .jsonWebTokenError
    else if p.exp ≤ now then .error .tokenExpiredError
    else .ok p

end Jwt

/-- An account document.  `password` is `some hash` on a stored document and
`none` after a `select('-password')` projection.  `isActive` is the active
flag of the secure-blog-api user model (spec §3: "active flag"); the
express-blog-api middleware never reads it. -/
structure User where
  id : Nat
  username : String
  email : String
  password : Option String
  role : String
  isActive : Bool
deriving DecidableEq, Repr

/-- `User.findById`: look an account up by id. -/
def findById (db : List User) (id : Nat) : Option User :=
  db.find? (fun u => u.id == id)

/-- The `select('-password')` projection. -/
def stripPassword (u : User) : User :=
  { u with password := none }

/-- A post document of the secure-blog-api: `user` is the owner account id. -/
structure Post where
  id : Nat
  user : Nat
  status : String
  title : String
deriving DecidableEq, Repr

/-- `Post.findById`. -/
def findPostById (db : List Post) (id : Nat) : Option Post :=
  db.find? (fun p => p.id == id)

/-- The `Authorization` header value, abstracted over how the repository
parses it: the empty string, the string `"Bearer "` with nothing after it,
`"Bearer <token>"` with a nonempty token, or a nonempty string without the
`"Bearer "` marker. -/
inductive HeaderVal where
  | empty
  | bearerOnly
  | bearerTok (t : Jwt.TokenStr)
  | rawTok (t : Jwt.TokenStr)
deriving DecidableEq, Repr

/-- Token extraction as both middlewares perform it (`slice(7)` after a
`startsWith('Bearer ')` test in the secure-blog-api, `replace('Bearer ', '')`
in the express-blog-api): strip the `"Bearer "` marker if present and fail on
an empty remainder. -/
def extractToken : HeaderVal → Option Jwt.TokenStr
  | .empty => none
  | .bearerOnly => none
  | .bearerTok t => some t
  | .rawTok t => some t

/-- Outcome of a request-guarding middleware: an error response with a
status code and message, or a hand-off to the downstream handler with the
attached document. -/
inductive GuardResult (α : Type) where
  | reject (status : Nat) (message : String)
  | proceed (attached : α)
deriving DecidableEq, Repr

namespace SecureBlogApi

/-- `authenticate` (secure-blog-api middleware/auth.js): reject 401 on a
missing header, an empty extracted token, a failed verification, an unknown
account, or a deactivated account; otherwise attach the account (loaded with
`select('-password')`) and continue. -/
def authenticate (secret : String) (db : List User)
    (header : Option HeaderVal) (now : Nat) : GuardResult User :=
  match header with
  | none => .reject 401 "Access denied. No token provided."
  | some h =>
    match extractToken h with
    | none => .reject 401 "Access denied. Invalid token format."
    | some t =>
      match Jwt.verify t secret now with
      | .error .jsonWebTokenError => .reject 401 "Invalid token."
      | .error .tokenExpiredError => .reject 401 "Token expired."
      | .ok p =>
        match (findById db p.userId).map stripPassword with
        | none => .reject 401 "Token is valid but user no longer exists."
        | some u =>
          if !u.isActive then .reject 401 "User account is deactivated."
          else .proceed u

/-- `optionalAuth` (secure-blog-api): the same steps, but every failure
falls through to the downstream handler with no attached account; the
middleware itself never produces an error response, so its outcome is just
the optionally attached account. -/
def optionalAuth (secret : String) (db : List User)
    (header : Option HeaderVal) (now : Nat) : Option User :=
  match header with
  | none => none
  | some h =>
    match extractToken h with
    | none => none
    | some t =>
      match Jwt.verify t secret now with
      | .error _ => none
      | .ok p =>
        match (findById db p.userId).map stripPassword with
        | none => none
        | some u => if u.isActive then some u else none

/-- Default token lifetime `'7d'` in seconds. -/
def sevenDays : Nat := 7 * 24 * 60 * 60

/-- `generateToken` (secure-blog-api): sign `\x7b userId \x7d` with the
configured secret, lifetime `JWT_EXPIRES_IN` defaulting to `'7d'`, issuer
`'secure-blog-api'`, audience `'blog-users'`. -/
def generateToken (secret : String) (expiresIn : Option Nat)
    (userId : Nat) (now : Nat) : Jwt.TokenStr :=
  Jwt.sign userId secret now (expiresIn.getD sevenDays)
    (some "secure-blog-api") (some "blog-users")

/-- `checkOwnership` (secure-blog-api): load the resource by the route
parameter; 404 if absent; admins proceed with any resource; otherwise
proceed exactly when the resource's owner id equals the authenticated
account's id, else 403. -/
def checkOwnership (db : List Post) (reqUser : User) (resourceId : Nat) :
    GuardResult Post :=
  match findPostById db resourceId with
  | none => .reject 404 "Resource not found."
  | some r =>
    if reqUser.role = "admin" then .proceed r
    else if r.user ≠ reqUser.id then
      .reject 403 "Access denied. You can only access your own resources."
    else .proceed r

/-- The error values the secure-blog-api global error handler branches on. -/
inductive AppError where
  | validationError
  | duplicateKey (field : String)
  | jsonWebTokenError
  | tokenExpiredError
  | castError
  | other (statusCode : Option Nat) (message : String)
deriving DecidableEq, Repr

/-- The global error handler (secure-blog-api server.js): status code and
message per error kind; a Mongoose duplicate-key error (code 11000) becomes
a 409 conflict naming the duplicated field. -/
def globalErrorHandler : AppError → Nat × String
  | .validationError => (400, "Validation Error")
  | .duplicateKey field => (409, field ++ " already exists")
  | .jsonWebTokenError => (401, "Invalid token")
  | .tokenExpiredError => (401, "Token expired")
  | .castError => (400, "Invalid ID format")
  | .other statusCode message => (statusCode.getD 500, message)

/-- A JSON response of the posts routes: status code, envelope success flag
and message, and the returned post when there is one. -/
structure PostResponse where
  status : Nat
  success : Bool
  message : String
  post : Option Post
deriving DecidableEq, Repr

/-- The body both 404 branches of `GET /posts/:id` return. -/
def postNotFound : PostResponse :=
  { status := 404, success := false, message := "Post not found", post := none }

/-- `GET /posts/:id` (secure-blog-api posts routes, after `optionalAuth`):
404 when the id matches no post; for an unpublished post, 404 unless the
requester is attached and is the owner or an admin; otherwise 200 with the
post. -/
def getPost (db : List Post) (reqUser : Option User) (id : Nat) :
    PostResponse :=
  match findPostById db id with
  | none => postNotFound
  | some p =>
    if p.status ≠ "published" then
      match reqUser with
      | none => postNotFound
      | some u =>
        if u.id ≠ p.user ∧ u.role ≠ "admin" then postNotFound
        else { status := 200, success := true,
               message := "Post retrieved successfully", post := some p }
    else { status := 200, success := true,
           message := "Post retrieved successfully", post := some p }

end SecureBlogApi

namespace ExpressBlogApi

/-- The signing/verification secret of the express-blog-api auth module:
`process.env.JWT_SECRET || 'your-secret-key'`. -/
def jwtSecret (env : Option String) : String :=
  env.getD "your-secret-key"

/-- `auth` (express-blog-api middleware/auth.js): 401 when no token can be
extracted from the header; 401 `"Invalid token."` via the catch when
verification throws; 401 when the embedded account does not exist; otherwise
attach the account (no password projection here) and continue. -/
def auth (env : Option String) (db : List User)
    (header : Option HeaderVal) (now : Nat) : GuardResult User :=
  match header.bind extractToken with
  | none => .reject 401 "Access denied. No token provided."
  | some t =>
    match Jwt.verify t (jwtSecret env) now with
    | .error _ => .reject 401 "Invalid token."
    | .ok p =>
      match findById db p.userId with
      | none => .reject 401 "Invalid token."
      | some u => .proceed u

/-- `optionalAuth` (express-blog-api): the same steps, but any failure falls
through to the downstream handler with no attached account. -/
def optionalAuth (env : Option String) (db : List User)
    (header : Option HeaderVal) (now : Nat) : Option User :=
  match header.bind extractToken with
  | none => none
  | some t =>
    match Jwt.verify t (jwtSecret env) now with
    | .error _ => none
    | .ok p => findById db p.userId

/-- `isOwner` (express-blog-api): permit when an account is attached and its
id equals the `:id` route parameter or its role is `'admin'`; else 403. -/
def isOwner (reqUser : Option User) (paramId : Nat) : GuardResult Unit :=
  match reqUser with
  | some u =>
    if u.id = paramId ∨ u.role = "admin" then .proceed ()
    else .reject 403 "Access denied. Not authorized."
  | none => .reject 403 "Access denied. Not authorized."

/-- Token lifetime `'24h'` in seconds, used by the register route. -/
def oneDay : Nat := 24 * 60 * 60

/-- The `jwt.sign` call of the register route: payload `\x7b userId \x7d`,
secret `JWT_SECRET || 'your-secret-key'`, `expiresIn: '24h'`, no issuer or
audience option. -/
def registerSign (env : Option String) (userId : Nat) (now : Nat) :
    Jwt.TokenStr :=
  Jwt.sign userId (jwtSecret env) now oneDay none none

/-- The duplicate lookup of the register route:
`User.findOne(\x7b $or: [\x7b email \x7d, \x7b username \x7d] \x7d)`. -/
def existingUser (db : List User) (email username : String) : Option User :=
  db.find? (fun u => u.email == email || u.username == username)

/-- Outcome of the register route: response status and the account store
after the request. -/
structure RegisterOutcome where
  status : Nat
  db : List User
deriving DecidableEq, Repr

/-- The register route (express-blog-api routes/auth.js) after input
validation has passed: 400 with no store change when an account with the
same email or username exists, else save the new account and answer 201. -/
def register (db : List User) (username email passwordHash : String)
    (newId : Nat) : RegisterOutcome :=
  match existingUser db email username with
  | some _ => { status := 400, db := db }
  | none =>
    { status := 201
      db := db ++ [{ id := newId, username := username, email := email,
                     password := some passwordHash, role := "user",
                     isActive := true }] }

/-- `this.toObject()` on a user document, as the key list of its JSON
representation: every stored field appears, the password hash included. -/
def userToObject (u : User) : List (String × String) :=
  [("_id", toString u.id), ("username", u.username), ("email", u.email),
   ("password", u.password.getD ""), ("role", u.role)]

/-- `userSchema.methods.toJSON`: take the object form and delete its
`password` key. -/
def toJSON (u : User) : List (String × String) :=
  (userToObject u).filter (fun kv => kv.1 != "password")

end ExpressBlogApi

namespace Chat

/-- A chat message as the relay stores it. -/
structure Msg where
  user : String
  text : String
  timestamp : Nat
deriving DecidableEq, Repr

/-- The in-memory `chatHistory` object: room name to message list; `none`
models a room key that has never been created. -/
def History : Type := String → Option (List Msg)

/-- The `'message'` event handler: create the room's entry on first use,
then push the message at the end of the room's list. -/
def chatStep (st : History) (ev : String × Msg) : History :=
  fun r => if r = ev.1 then some ((st ev.1).getD [] ++ [ev.2]) else st r

/-- The history map after a sequence of `'message'` events starting from the
fresh (empty) `chatHistory` object. -/
def runChat (evs : List (String × Msg)) : History :=
  evs.foldl chatStep (fun _ => none)

/-- The `'joinRoom'` event handler's reply: emit the room's history when its
entry exists (`if (chatHistory[room])`), nothing otherwise. -/
def handleJoin (st : History) (room : String) : Option (List Msg) :=
  st room

/-- The messages of an event sequence addressed to one room, in arrival
order. -/
def roomMsgs (evs : List (String × Msg)) (room : String) : List Msg :=
  (evs.filter (fun e => e.1 == room)).map (fun e => e.2)

end Chat

/-- A request's `Authorization` header is absent or malformed with respect to
a verification secret at a given time: no header, no extractable token, or a
token the verifier rejects. -/
def headerMalformed (secret : String) (now : Nat)
    (header : Option HeaderVal) : Bool :=
  match header with
  | none => true
  | some h =>
    match extractToken h with
    | none => true
    | some t =>
      match Jwt.verify t secret now with
      | .ok _ => false
      | .error _ => true

/-- C1: for every request to a protected route whose `Authorization` header
is absent or malformed, both authentication middlewares respond 401 (so the
downstream handler, reached only through `proceed`, is never invoked). -/
theorem auth_missing_or_malformed_rejects_401
    (secret : String) (env : Option String) (db db2 : List User)
    (now now2 : Nat) (h1 h2 : Option HeaderVal)
    (hm1 : headerMalformed secret now h1 = true)
    (hm2 : headerMalformed (ExpressBlogApi.jwtSecret env) now2 h2 = true) :
    (∃ m, SecureBlogApi.authenticate secret db h1 now =
      GuardResult.reject 401 m) ∧
    (∃ m, ExpressBlogApi.auth env db2 h2 now2 = GuardResult.reject 401 m) := by
  constructor
  · cases h1 with
    | none => exact ⟨_, rfl⟩
    | some h =>
      cases hx : extractToken h with
      | none =>
        simp only [SecureBlogApi.authenticate, hx]
        exact ⟨_, rfl⟩
      | some t =>
        cases hv : Jwt.verify t secret now with
        | ok p =>
          simp only [headerMalformed, hx, hv] at hm1
          exact Bool.noConfusion hm1
        | error e =>
          simp only [SecureBlogApi.authenticate, hx, hv]
          cases e <;> exact ⟨_, rfl⟩
  · cases h2 with
    | none => exact ⟨_, rfl⟩
    | some h =>
      cases hx : extractToken h with
      | none =>
        simp only [ExpressBlogApi.auth, Option.bind, hx]
        exact ⟨_, rfl⟩
      | some t =>
        cases hv : Jwt.verify t (ExpressBlogApi.jwtSecret env) now2 with
        | ok p =>
          simp only [headerMalformed, hx, hv] at hm2
          exact Bool.noConfusion hm2
        | error e =>
          simp only [ExpressBlogApi.auth, Option.bind, hx, hv]
          exact ⟨_, rfl⟩

/-- Witness for C1 at a concrete malformed header (a garbage token). -/
theorem auth_missing_or_malformed_rejects_401_witness :
    (∃ m, SecureBlogApi.authenticate "k" [] (some (.rawTok (.garbage "x"))) 0 =
      GuardResult.reject 401 m) ∧
    (∃ m, ExpressBlogApi.auth none [] none 0 = GuardResult.reject 401 m) :=
  auth_missing_or_malformed_rejects_401 "k" none [] [] 0 0
    (some (.rawTok (.garbage "x"))) none (by decide) (by decide)

/-- C2: the ownership check loads the resource; 404 when absent; an admin
account is permitted; otherwise it permits exactly when the resource's owner
id equals the account id, and answers 403 otherwise. -/
theorem checkOwnership_cases (db : List Post) (u : User) (rid : Nat) :
    (findPostById db rid = none →
      SecureBlogApi.checkOwnership db u rid =
        GuardResult.reject 404 "Resource not found.") ∧
    (∀ r, findPostById db rid = some r →
      (u.role = "admin" →
        SecureBlogApi.checkOwnership db u rid = GuardResult.proceed r) ∧
      (u.role ≠ "admin" →
        (r.user = u.id →
          SecureBlogApi.checkOwnership db u rid = GuardResult.proceed r) ∧
        (r.user ≠ u.id →
          SecureBlogApi.checkOwnership db u rid = GuardResult.reject 403
            "Access denied. You can only access your own resources."))) := by
  refine ⟨fun habs => ?_, fun r hr => ⟨fun hadm => ?_, fun hnadm => ⟨fun hown => ?_, fun hnown => ?_⟩⟩⟩
  · simp only [SecureBlogApi.checkOwnership, habs]
  · simp [SecureBlogApi.checkOwnership, hr, hadm]
  · simp only [SecureBlogApi.checkOwnership, hr, if_neg hnadm, hown]
    simp
  · simp only [SecureBlogApi.checkOwnership, hr, if_neg hnadm, if_pos hnown]

/-- Witness for C2: a non-admin owner is permitted on their own resource. -/
theorem checkOwnership_cases_witness :
    SecureBlogApi.checkOwnership
      [{ id := 9, user := 4, status := "draft", title := "t" }]
      { id := 4, username := "bob", email := "b@x", password := some "h",
        role := "user", isActive := true } 9 =
    GuardResult.proceed { id := 9, user := 4, status := "draft", title := "t" } :=
  (((checkOwnership_cases _ _ 9).2 _ (by decide)).2 (by decide)).1 (by decide)

/-- C3: decoding a freshly issued token (with the signing key) yields a
payload holding exactly the requesting account id, the expiry
issuance-time + configured lifetime (default `'7d'`, i.e. 604800 s), the
configured issuer and audience, and nothing else — the payload type has no
further fields. -/
theorem generateToken_roundtrip (secret : String) (expiresIn : Option Nat)
    (uid now : Nat) (hpos : 0 < expiresIn.getD SecureBlogApi.sevenDays) :
    Jwt.verify (SecureBlogApi.generateToken secret expiresIn uid now)
        secret now =
      Except.ok { userId := uid,
                  exp := now + expiresIn.getD SecureBlogApi.sevenDays,
                  iss := some "secure-blog-api",
                  aud := some "blog-users" } ∧
    SecureBlogApi.sevenDays = 604800 := by
  refine ⟨?_, by decide⟩
  simp only [SecureBlogApi.generateToken, Jwt.sign, Jwt.verify,
    ne_eq, not_true_eq_false, if_false]
  have hlt : ¬ (now + expiresIn.getD SecureBlogApi.sevenDays ≤ now) := by
    omega
  simp [hlt]

/-- Witness for C3 with the default lifetime. -/
theorem generateToken_roundtrip_witness :
    Jwt.verify (SecureBlogApi.generateToken "k" none 7 100) "k" 100 =
      Except.ok { userId := 7, exp := 100 + 604800,
                  iss := some "secure-blog-api",
                  aud := some "blog-users" } ∧
    SecureBlogApi.sevenDays = 604800 :=
  generateToken_roundtrip "k" none 7 100 (by decide)

/-- C4: a validly signed, unexpired token whose embedded account exists but
is deactivated makes `authenticate` answer 401 and attach no account. -/
theorem authenticate_deactivated_rejects (secret : String) (db : List User)
    (h : HeaderVal) (t : Jwt.TokenStr) (p : Jwt.Payload) (u : User) (now : Nat)
    (hex : extractToken h = some t)
    (hv : Jwt.verify t secret now = Except.ok p)
    (hu : findById db p.userId = some u)
    (hin : u.isActive = false) :
    SecureBlogApi.authenticate secret db (some h) now =
      GuardResult.reject 401 "User account is deactivated." ∧
    ∀ v, SecureBlogApi.authenticate secret db (some h) now ≠
      GuardResult.proceed v := by
  have hres : SecureBlogApi.authenticate secret db (some h) now =
      GuardResult.reject 401 "User account is deactivated." := by
    simp only [SecureBlogApi.authenticate, hex, hv, hu, Option.map_some]
    simp [stripPassword, hin]
  exact ⟨hres, fun v hv2 => by rw [hres] at hv2; exact GuardResult.noConfusion hv2⟩

/-- Witness for C4: a deactivated account holding a fresh valid token is
rejected. -/
theorem authenticate_deactivated_rejects_witness :
    SecureBlogApi.authenticate "k"
      [{ id := 5, username := "c", email := "c@x", password := some "h",
         role := "user", isActive := false }]
      (some (.bearerTok (.signed ⟨5, 10, none, none⟩ "k"))) 0 =
      GuardResult.reject 401 "User account is deactivated." :=
  (authenticate_deactivated_rejects "k"
    [{ id := 5, username := "c", email := "c@x", password := some "h",
       role := "user", isActive := false }]
    (.bearerTok (.signed ⟨5, 10, none, none⟩ "k"))
    (.signed ⟨5, 10, none, none⟩ "k") ⟨5, 10, none, none⟩
    { id := 5, username := "c", email := "c@x", password := some "h",
      role := "user", isActive := false } 0
    rfl (by simp [Jwt.verify]) (by decide) rfl).1

/-- C5 counterexample: the express-blog-api register route answers a
duplicate email with HTTP 400, not the conflict status 409 the claim
states. -/
theorem register_duplicate_status_counterexample :
    (ExpressBlogApi.register
      [{ id := 1, username := "alice", email := "alice@example.com",
         password := some "h1", role := "user", isActive := true }]
      "alice" "alice@example.com" "h2" 2).status = 400 ∧
    (400 : Nat) ≠ 409 := by
  exact ⟨rfl, by decide⟩

/-- C5 amended: a duplicate registration is rejected with a client error —
400 by the express-blog-api register route, 409 by the secure-blog-api
duplicate-key branch of the global error handler — and the account store is
left unchanged (no silent overwrite). -/
theorem register_duplicate_rejects_without_overwrite
    (db : List User) (username email pw : String) (nid : Nat)
    (hdup : (ExpressBlogApi.existingUser db email username).isSome = true) :
    ExpressBlogApi.register db username email pw nid =
      { status := 400, db := db } ∧
    (∀ field, SecureBlogApi.globalErrorHandler (.duplicateKey field) =
      (409, field ++ " already exists")) := by
  refine ⟨?_, fun field => rfl⟩
  unfold ExpressBlogApi.register
  cases hx : ExpressBlogApi.existingUser db email username with
  | none => rw [hx] at hdup; exact Bool.noConfusion hdup
  | some u => simp [hx]

/-- Witness for C5 (amended) at a concrete duplicate registration. -/
theorem register_duplicate_rejects_without_overwrite_witness :
    ExpressBlogApi.register
      [{ id := 1, username := "alice", email := "alice@example.com",
         password := some "h1", role := "user", isActive := true }]
      "bob" "alice@example.com" "h2" 2 =
      { status := 400,
        db := [{ id := 1, username := "alice", email := "alice@example.com",
                 password := some "h1", role := "user", isActive := true }] } ∧
    (∀ field, SecureBlogApi.globalErrorHandler (.duplicateKey field) =
      (409, field ++ " already exists")) :=
  register_duplicate_rejects_without_overwrite _ "bob" "alice@example.com"
    "h2" 2 (by decide)

/-- C6: no serialization returned to a client carries a password field:
`toJSON` output has no `password` key, a `select('-password')` load has no
hash, and any account `authenticate` attaches has no password. -/
theorem serialization_omits_password (u : User) :
    (ExpressBlogApi.toJSON u).lookup "password" = none ∧
    (∀ kv ∈ ExpressBlogApi.toJSON u, kv.1 ≠ "password") ∧
    (stripPassword u).password = none ∧
    (∀ secret db h now v,
      SecureBlogApi.authenticate secret db h now = GuardResult.proceed v →
      v.password = none) := by
  refine ⟨?_, ?_, rfl, ?_⟩
  · simp [ExpressBlogApi.toJSON, ExpressBlogApi.userToObject]
  · intro kv hkv
    simp only [ExpressBlogApi.toJSON, List.mem_filter] at hkv
    intro hk
    rw [hk] at hkv
    simpa using hkv.2
  · intro secret db h now v hp
    cases h with
    | none => exact GuardResult.noConfusion hp
    | some hd =>
      cases hx : extractToken hd with
      | none =>
        simp only [SecureBlogApi.authenticate, hx] at hp
        exact GuardResult.noConfusion hp
      | some t =>
        cases hv : Jwt.verify t secret now with
        | error e =>
          simp only [SecureBlogApi.authenticate, hx, hv] at hp
          cases e <;> simp_all
        | ok p =>
          cases hfind : findById db p.userId with
          | none =>
            simp only [SecureBlogApi.authenticate, hx, hv, hfind] at hp
            simp at hp
          | some w =>
            simp only [SecureBlogApi.authenticate, hx, hv, hfind] at hp
            simp only [Option.map] at hp
            split at hp
            · exact GuardResult.noConfusion hp
            · cases hp
              rfl

/-- Witness for C6: a concrete account attached by a successful
`authenticate` run has no password field. -/
theorem serialization_omits_password_witness :
    (stripPassword ⟨1, "a", "a@x", some "h", "user", true⟩).password = none :=
  (serialization_omits_password ⟨1, "a", "a@x", some "h", "user", true⟩).2.2.2
    "k" [⟨1, "a", "a@x", some "h", "user", true⟩]
    (some (.bearerTok (.signed ⟨1, 10, none, none⟩ "k"))) 0
    (stripPassword ⟨1, "a", "a@x", some "h", "user", true⟩)
    (by simp [SecureBlogApi.authenticate, extractToken, Jwt.verify, findById,
      stripPassword])

/-- C7: in both modules the optional variant runs the same verification
steps as the rejecting variant: it attaches an account exactly when the
rejecting variant would proceed with that account, and (by its result type,
mirroring its unconditional `next()`) it never produces an error response;
on any failure it continues with no attached account. -/
theorem optionalAuth_matches_rejecting_variant
    (secret : String) (env : Option String) (db db2 : List User)
    (h1 h2 : Option HeaderVal) (now now2 : Nat) (u : User) :
    (SecureBlogApi.optionalAuth secret db h1 now = some u ↔
      SecureBlogApi.authenticate secret db h1 now = GuardResult.proceed u) ∧
    (ExpressBlogApi.optionalAuth env db2 h2 now2 = some u ↔
      ExpressBlogApi.auth env db2 h2 now2 = GuardResult.proceed u) := by
  constructor
  · cases h1 with
    | none => simp [SecureBlogApi.optionalAuth, SecureBlogApi.authenticate]
    | some hd =>
      cases hx : extractToken hd with
      | none =>
        simp [SecureBlogApi.optionalAuth, SecureBlogApi.authenticate, hx]
      | some t =>
        cases hv : Jwt.verify t secret now with
        | error e =>
          cases e <;>
            simp [SecureBlogApi.optionalAuth, SecureBlogApi.authenticate,
              hx, hv]
        | ok p =>
          cases hfind : findById db p.userId with
          | none =>
            simp [SecureBlogApi.optionalAuth, SecureBlogApi.authenticate,
              hx, hv, hfind]
          | some w =>
            by_cases ha : (stripPassword w).isActive <;>
              simp [SecureBlogApi.optionalAuth, SecureBlogApi.authenticate,
                hx, hv, hfind, ha]
  · cases hx : h2.bind extractToken with
    | none =>
      simp [ExpressBlogApi.optionalAuth, ExpressBlogApi.auth, hx]
    | some t =>
      cases hv : Jwt.verify t (ExpressBlogApi.jwtSecret env) now2 with
      | error e =>
        simp [ExpressBlogApi.optionalAuth, ExpressBlogApi.auth, hx, hv]
      | ok p =>
        cases hfind : findById db2 p.userId with
        | none =>
          simp [ExpressBlogApi.optionalAuth, ExpressBlogApi.auth, hx, hv,
            hfind]
        | some w =>
          simp [ExpressBlogApi.optionalAuth, ExpressBlogApi.auth, hx, hv,
            hfind]

/-- C8: when `JWT_SECRET` is absent, the express-blog-api signs and verifies
with the fallback `'your-secret-key'`: the effective secret is the fallback,
a token freshly signed by the register route verifies under it while
unexpired, and the `auth` middleware accepts it when the account exists. -/
theorem fallback_secret_roundtrip (uid now now2 : Nat) (db : List User)
    (u : User)
    (hlt : now2 < now + ExpressBlogApi.oneDay)
    (hu : findById db uid = some u) :
    ExpressBlogApi.jwtSecret none = "your-secret-key" ∧
    Jwt.verify (ExpressBlogApi.registerSign none uid now)
        "your-secret-key" now2 =
      Except.ok { userId := uid, exp := now + ExpressBlogApi.oneDay,
                  iss := none, aud := none } ∧
    ExpressBlogApi.auth none db
        (some (.bearerTok (ExpressBlogApi.registerSign none uid now))) now2 =
      GuardResult.proceed u := by
  have hver : Jwt.verify (ExpressBlogApi.registerSign none uid now)
      "your-secret-key" now2 =
      Except.ok { userId := uid, exp := now + ExpressBlogApi.oneDay,
                  iss := none, aud := none } := by
    simp only [ExpressBlogApi.registerSign, ExpressBlogApi.jwtSecret,
      Option.getD_none, Jwt.sign, Jwt.verify, ne_eq, not_true_eq_false,
      if_false]
    have hne : ¬ (now + ExpressBlogApi.oneDay ≤ now2) := by omega
    simp [hne]
  refine ⟨rfl, hver, ?_⟩
  simp only [ExpressBlogApi.auth, Option.bind, extractToken,
    ExpressBlogApi.jwtSecret, Option.getD_none, hver, hu]

/-- Witness for C8 at a concrete account and clock. -/
theorem fallback_secret_roundtrip_witness :
    ExpressBlogApi.jwtSecret none = "your-secret-key" ∧
    Jwt.verify (ExpressBlogApi.registerSign none 3 1000)
        "your-secret-key" 1500 =
      Except.ok { userId := 3, exp := 1000 + ExpressBlogApi.oneDay,
                  iss := none, aud := none } ∧
    ExpressBlogApi.auth none [⟨3, "d", "d@x", some "h", "user", true⟩]
        (some (.bearerTok (ExpressBlogApi.registerSign none 3 1000))) 1500 =
      GuardResult.proceed ⟨3, "d", "d@x", some "h", "user", true⟩ :=
  fallback_secret_roundtrip 3 1000 1500
    [⟨3, "d", "d@x", some "h", "user", true⟩]
    ⟨3, "d", "d@x", some "h", "user", true⟩ (by decide) (by decide)

/-- C10: in the secure-blog-api, a GET of an unpublished post by a requester
who is neither its owner nor an admin (an unauthenticated requester
included) yields exactly the response of a GET of an absent post id: the
same 404 not-found body. -/
theorem unpublished_indistinguishable_from_absent
    (db : List Post) (reqUser : Option User) (id badId : Nat) (p : Post)
    (hp : findPostById db id = some p)
    (hunpub : p.status ≠ "published")
    (hpriv : ∀ u, reqUser = some u → u.id ≠ p.user ∧ u.role ≠ "admin")
    (habs : findPostById db badId = none) :
    SecureBlogApi.getPost db reqUser id =
      SecureBlogApi.getPost db reqUser badId ∧
    SecureBlogApi.getPost db reqUser badId = SecureBlogApi.postNotFound := by
  have hbad : SecureBlogApi.getPost db reqUser badId =
      SecureBlogApi.postNotFound := by
    simp only [SecureBlogApi.getPost, habs]
  refine ⟨?_, hbad⟩
  rw [hbad]
  cases reqUser with
  | none => simp [SecureBlogApi.getPost, hp, hunpub]
  | some u =>
    obtain ⟨hid, hrole⟩ := hpriv u rfl
    simp [SecureBlogApi.getPost, hp, hunpub, hid, hrole]

/-- Witness for C10: an unauthenticated GET of a concrete draft post equals
the GET of an absent id. -/
theorem unpublished_indistinguishable_from_absent_witness :
    SecureBlogApi.getPost [⟨10, 1, "draft", "t"⟩] none 10 =
      SecureBlogApi.getPost [⟨10, 1, "draft", "t"⟩] none 99 ∧
    SecureBlogApi.getPost [⟨10, 1, "draft", "t"⟩] none 99 =
      SecureBlogApi.postNotFound :=
  unpublished_indistinguishable_from_absent [⟨10, 1, "draft", "t"⟩] none
    10 99 ⟨10, 1, "draft", "t"⟩ (by decide) (by decide)
    (fun u hu => Option.noConfusion hu) (by decide)

/-- Helper for C9: the room entry after folding any event sequence over any
starting history: an existing entry grows by the room's messages at its end;
a missing entry is created exactly when some message addresses the room. -/
theorem chat_run_lookup (evs : List (String × Chat.Msg)) (st : Chat.History)
    (room : String) :
    (evs.foldl Chat.chatStep st) room =
      match st room with
      | some h => some (h ++ Chat.roomMsgs evs room)
      | none =>
        if Chat.roomMsgs evs room = [] then none
        else some (Chat.roomMsgs evs room) := by
  induction evs generalizing st with
  | nil =>
    cases hst : st room <;> simp [Chat.roomMsgs, hst]
  | cons ev tl ih =>
    obtain ⟨r, m⟩ := ev
    simp only [List.foldl_cons]
    rw [ih]
    by_cases hr : room = r
    · subst hr
      have hstep : Chat.chatStep st (room, m) room =
          some ((st room).getD [] ++ [m]) := by
        simp [Chat.chatStep]
      have hmsgs : Chat.roomMsgs ((room, m) :: tl) room =
          m :: Chat.roomMsgs tl room := by
        simp [Chat.roomMsgs]
      rw [hstep, hmsgs]
      cases hst : st room <;> simp [hst]
    · have hstep : Chat.chatStep st (r, m) room = st room := by
        simp [Chat.chatStep, hr]
      have hmsgs : Chat.roomMsgs ((r, m) :: tl) room =
          Chat.roomMsgs tl room := by
        simp only [Chat.roomMsgs, List.filter_cons]
        rw [if_neg (by simpa using fun h => hr h.symm)]
      rw [hstep, hmsgs]

/-- C9: a `'message'` event appends its message at the end of the target
room's history, the entry being created on first message; consequently
after any event sequence the room's history holds exactly the messages sent
to it in arrival order, the entry existing iff at least one message was
sent, and a joining client receives exactly that prior history iff at least
one message was previously sent to the room. -/
theorem chat_history_exact (evs : List (String × Chat.Msg)) (room : String) :
    (∀ m, Chat.runChat (evs ++ [(room, m)]) room =
      some (Chat.roomMsgs evs room ++ [m])) ∧
    Chat.handleJoin (Chat.runChat evs) room =
      (if Chat.roomMsgs evs room = [] then none
       else some (Chat.roomMsgs evs room)) := by
  have hbase : Chat.runChat evs room =
      (if Chat.roomMsgs evs room = [] then none
       else some (Chat.roomMsgs evs room)) := by
    unfold Chat.runChat
    rw [chat_run_lookup]
  refine ⟨?_, hbase⟩
  intro m
  unfold Chat.runChat
  rw [List.foldl_append]
  simp only [List.foldl_cons, List.foldl_nil]
  have hstep : Chat.chatStep (evs.foldl Chat.chatStep (fun _ => none))
      (room, m) room =
      some (((evs.foldl Chat.chatStep (fun _ => none)) room).getD [] ++ [m]) := by
    simp [Chat.chatStep]
  rw [hstep]
  have hrun : (evs.foldl Chat.chatStep (fun _ => none)) room =
      Chat.runChat evs room := rfl
  rw [hrun, hbase]
  by_cases hnil : Chat.roomMsgs evs room = [] <;> simp [hnil]
